import Mathlib

/-!
Shallow embedding of the bournemouth OpenRouter client, client pool and
websocket chat multiplexer (src/bournemouth/openrouter.py,
openrouter_service.py, chat_utils.py), together with theorems settling the
specification claims about them.
-/

namespace Bournemouth

/-! ## Exception taxonomy (openrouter.py, openrouter_service.py)

Python exception classes raised by the adapter and service layers, with
their inheritance chains as declared in the source. -/

inductive ExcClass where
  | clientError
  | networkError
  | timeoutError
  | apiError
  | authenticationError
  | genericAPIError
  | rateLimitError
  | invalidRequestError
  | permissionError
  | insufficientCreditsError
  | serverError
  | dataValidationError
  | requestDataValidationError
  | responseDataValidationError
  | streamChunkDecodeError
  | clientNotInitError
deriving DecidableEq, Repr

/-- Direct superclass of each exception class, as declared in
openrouter.py (`OpenRouterClientError` extends `Exception`;
`ClientNotInitializedError` extends `RuntimeError`, outside the
client-error hierarchy). -/
def parentClass : ExcClass → Option ExcClass
  | .clientError => none
  | .networkError => some .clientError
  | .timeoutError => some .networkError
  | .apiError => some .clientError
  | .authenticationError => some .apiError
  | .genericAPIError => some .apiError
  | .rateLimitError => some .apiError
  | .invalidRequestError => some .apiError
  | .permissionError => some .apiError
  | .insufficientCreditsError => some .apiError
  | .serverError => some .apiError
  | .dataValidationError => some .clientError
  | .requestDataValidationError => some .dataValidationError
  | .responseDataValidationError => some .dataValidationError
  | .streamChunkDecodeError => some .responseDataValidationError
  | .clientNotInitError => none

def ancestorsAux : Nat → ExcClass → List ExcClass
  | 0, c => [c]
  | n + 1, c =>
    c :: (match parentClass c with
          | some p => ancestorsAux n p
          | none => [])

/-- All classes of which an exception is an instance (itself and its
transitive superclasses within the modelled hierarchy). -/
def ancestors (c : ExcClass) : List ExcClass :=
  ancestorsAux 5 c

/-- Python `isinstance(e, c)` restricted to the modelled hierarchy. -/
def isInstance (e c : ExcClass) : Bool :=
  decide (c ∈ ancestors e)

/-! ## Status → error mapping (openrouter.py `_map_status_to_error`,
`OpenRouterAsyncClient._raise_for_status`) -/

/-- Integer values of the members of Python's `http.HTTPStatus` enum:
`HTTPStatus(status)` succeeds exactly on these and raises `ValueError`
otherwise. -/
def validHTTPStatusCodes : List Nat :=
  [100, 101, 102, 103,
   200, 201, 202, 203, 204, 205, 206, 207, 208, 226,
   300, 301, 302, 303, 304, 305, 307, 308,
   400, 401, 402, 403, 404, 405, 406, 407, 408, 409, 410, 411, 412, 413,
   414, 415, 416, 417, 418, 421, 422, 423, 424, 425, 426, 428, 429, 431, 451,
   500, 501, 502, 503, 504, 505, 506, 507, 508, 510, 511]

/-- The `_STATUS_MAP` dict: specific exception classes for five statuses. -/
def statusMapLookup (s : Nat) : Option ExcClass :=
  if s = 401 then some .authenticationError
  else if s = 402 then some .insufficientCreditsError
  else if s = 403 then some .permissionError
  else if s = 429 then some .rateLimitError
  else if s = 400 then some .invalidRequestError
  else none

/-- `_map_status_to_error`: `HTTPStatus(status)` (falling back to the base
`OpenRouterAPIError` on `ValueError`), then the `_STATUS_MAP` lookup, then
the `>= 500` check. `.apiError` marks the base-class result. -/
def mapStatusToError (s : Nat) : ExcClass :=
  if s ∈ validHTTPStatusCodes then
    match statusMapLookup s with
    | some c => c
    | none => if 500 ≤ s then .serverError else .apiError
  else .apiError

/-- Error payload `error` object (`OpenRouterAPIErrorDetails`). -/
structure OpenRouterAPIErrorDetails where
  message : String
  code : Option (String ⊕ Int) := none
  param : Option String := none
  type : Option String := none
deriving DecidableEq, Repr

/-- Wrapper for API error information (`OpenRouterErrorResponse`). -/
structure OpenRouterErrorResponse where
  error : OpenRouterAPIErrorDetails
deriving DecidableEq, Repr

/-- Raw HTTP body bytes. -/
abbrev RawBody := List Nat

/-- `_decode_error_details`: best effort — a decode failure yields no
details rather than an error. The JSON decoder itself is abstracted as a
function argument. -/
def decodeErrorDetails (dec : RawBody → Except String OpenRouterErrorResponse)
    (raw : RawBody) : Option OpenRouterAPIErrorDetails :=
  match dec raw with
  | .ok r => some r.error
  | .error _ => none

/-- An exception raised by `_raise_for_status`: its class, the HTTP status
it carries, and the optional parsed details. -/
structure RaisedAPIError where
  cls : ExcClass
  status_code : Nat
  error_details : Option OpenRouterAPIErrorDetails
deriving DecidableEq, Repr

/-- `_raise_for_status`, used by both `create_chat_completion` and
`stream_chat_completion`: returns early below 400, otherwise reads and
best-effort-decodes the body and raises the mapped class (the base-class
result is replaced by `OpenRouterGenericAPIError`). -/
def raiseForStatus (dec : RawBody → Except String OpenRouterErrorResponse)
    (status : Nat) (raw : RawBody) : Option RaisedAPIError :=
  if status < 400 then none
  else
    let details := decodeErrorDetails dec raw
    let excCls := mapStatusToError status
    if excCls = .apiError then
      some ⟨.genericAPIError, status, details⟩
    else
      some ⟨excCls, status, details⟩

/-- Status class predicted by the amended claim: the five listed statuses
map to their specific classes; a status ≥ 500 maps to the server error
only when it is a recognised `HTTPStatus` value; every other status ≥ 400
(unlisted recognised 4xx such as 418, and unrecognised codes such as 520)
maps to the generic API error. -/
def specStatusClass (s : Nat) : ExcClass :=
  if s = 401 then .authenticationError
  else if s = 402 then .insufficientCreditsError
  else if s = 403 then .permissionError
  else if s = 429 then .rateLimitError
  else if s = 400 then .invalidRequestError
  else if 500 ≤ s ∧ s ∈ validHTTPStatusCodes then .serverError
  else .genericAPIError

/-! ## Service-boundary error funnel (openrouter_service.py
`chat_with_service`, `stream_chat_with_service`) -/

/-- The two boundary-facing service error classes. -/
inductive ServiceError where
  | timeout
  | badGateway
deriving DecidableEq, Repr

/-- The identical `except` cascade of `chat_with_service` and
`stream_chat_with_service`: `OpenRouterTimeoutError` is re-raised as the
service timeout error; `OpenRouterNetworkError`, `OpenRouterServerError`
and `OpenRouterAPIError` as the service bad-gateway error; any other
exception propagates to the caller unchanged. -/
def mapServiceError (e : ExcClass) : Except ExcClass ServiceError :=
  if isInstance e .timeoutError then .ok .timeout
  else if isInstance e .networkError || isInstance e .serverError
      || isInstance e .apiError then .ok .badGateway
  else .error e

/-! ## Streaming data model (openrouter.py) -/

/-- Token usage information (`UsageStats`). -/
structure UsageStats where
  prompt_tokens : Nat
  completion_tokens : Nat
  total_tokens : Nat
deriving DecidableEq, Repr

/-- Partial message content in streaming responses (`ResponseDelta`);
`tool_calls` is omitted as no claim concerns it. -/
structure ResponseDelta where
  role : Option String := none
  content : Option String := none
deriving DecidableEq, Repr

/-- Choice object from a streamed chunk (`StreamChoice`). -/
structure StreamChoice where
  index : Nat
  delta : ResponseDelta
  finish_reason : Option String := none
  native_finish_reason : Option String := none
deriving DecidableEq, Repr

/-- A single chunk from a streaming completion (`StreamChunk`). -/
structure StreamChunk where
  id : String
  created : Nat
  model : String
  choices : List StreamChoice
  usage : Option UsageStats := none
deriving DecidableEq, Repr

/-! ## SSE line processing (openrouter.py
`OpenRouterAsyncClient.stream_chat_completion`)

A body line is modelled as its sequence of characters (Python `str`).
The msgspec JSON decoder for `StreamChunk` is abstracted as a function
argument; `none` models `msgspec.DecodeError`. -/

abbrev Line := List Char

/-- The `"data: "` payload marker. -/
def dataTag : Line := "data: ".toList

/-- How the streamed body iteration ends: the line iterator is exhausted;
the empty `data:` payload sentinel broke the loop cleanly; or a payload
failed to decode and `OpenRouterStreamChunkDecodeError` was raised. -/
inductive StreamEnd where
  | exhausted
  | sentinel
  | decodeFailure (payload : Line)
deriving DecidableEq, Repr

/-- The `async for line in resp.aiter_lines()` loop body of
`stream_chat_completion`: empty lines and lines starting with a comment
marker are skipped, `data: `-prefixed lines carry a payload (`line[6:]`),
the empty payload breaks, a decodable payload is yielded, an undecodable
one raises; any other line falls through the loop. Returns the chunks
yielded in order and how the iteration ended. -/
def processSSELines (decode : Line → Option StreamChunk) :
    List Line → List StreamChunk × StreamEnd
  | [] => ([], .exhausted)
  | line :: rest =>
    if line = [] ∨ [':'].isPrefixOf line then processSSELines decode rest
    else if dataTag.isPrefixOf line then
      let payload := line.drop 6
      if payload = [] then ([], .sentinel)
      else
        match decode payload with
        | some c =>
          let r := processSSELines decode rest
          (c :: r.1, r.2)
        | none => ([], .decodeFailure payload)
    else processSSELines decode rest

/-! ## Chat data model and request preprocessing (openrouter.py) -/

/-- Message roles accepted by OpenRouter (`Role` literal union). -/
inductive Role where
  | system
  | user
  | assistant
  | tool
deriving DecidableEq, Repr

/-- A single chat message (`ChatMessage`); structured content parts and
tool metadata are carried but not inspected by any claim, so content is
modelled as the text case. -/
structure ChatMessage where
  role : Role
  content : String
  name : Option String := none
  tool_call_id : Option String := none
deriving DecidableEq, Repr

/-- Payload for `/chat/completions` requests (`ChatCompletionRequest`).
Float-valued sampling options are not modellable and are omitted; the
integer- and string-valued options stand in for the preserved remainder
of the record. -/
structure ChatCompletionRequest where
  model : String
  messages : List ChatMessage
  stream : Bool := false
  max_tokens : Option Nat := none
  top_k : Option Nat := none
  seed : Option Int := none
  stop : Option (List String) := none
  user : Option String := none
deriving DecidableEq, Repr

/-- The preprocessing in `create_chat_completion`: when `request.stream`
is set, the request is rebuilt via `msgspec.to_builtins` with `stream`
forced to `False` before encoding; all other fields round-trip
unchanged. -/
def completeSentRequest (req : ChatCompletionRequest) : ChatCompletionRequest :=
  if req.stream then { req with stream := false } else req

/-- The preprocessing in `stream_chat_completion`: when `request.stream`
is unset, the request is rebuilt with `stream` forced to `True` before
encoding; all other fields round-trip unchanged. -/
def streamSentRequest (req : ChatCompletionRequest) : ChatCompletionRequest :=
  if !req.stream then { req with stream := true } else req

/-! ## Client pool (openrouter_service.py `OpenRouterService`)

The `OrderedDict` of cached adapters is an association list in insertion
order (head = least recently used). Each constructed adapter instance is
identified by a fresh number; `closeLog` records, in order, the adapters
whose underlying httpx client was actually closed (a second `__aexit__`
on an already-closed adapter is a no-op because the adapter's `_client`
is already `None`). `stack` models the `AsyncExitStack` contents. -/

structure PoolConfig where
  maxClients : Nat
deriving DecidableEq, Repr

structure PoolState where
  entered : Bool
  clients : List (String × Nat)
  nextId : Nat
  stack : List Nat
  closeLog : List Nat
deriving DecidableEq, Repr

/-- The pool of a freshly constructed `OpenRouterService`. -/
def initPool : PoolState :=
  ⟨false, [], 0, [], []⟩

/-- `OpenRouterAsyncClient.__aexit__`: closes the underlying httpx client
once; a repeated call returns early because `_client` is `None`. -/
def closeAdapter (st : PoolState) (cid : Nat) : PoolState :=
  if cid ∈ st.closeLog then st
  else { st with closeLog := st.closeLog ++ [cid] }

/-- `_ensure_stack`: enter the exit stack once. -/
def ensureStack (st : PoolState) : PoolState :=
  { st with entered := true }

/-- `OrderedDict.move_to_end(key)` on an association list. -/
def moveToEnd (key : String) (l : List (String × Nat)) : List (String × Nat) :=
  match l.find? (fun p => p.1 == key) with
  | some p => l.eraseP (fun q => q.1 == key) ++ [p]
  | none => l

/-- `popitem(last=False)` raises `KeyError` on an empty `OrderedDict`. -/
inductive PoolError where
  | keyError
deriving DecidableEq, Repr

/-- `OpenRouterService._get_client`: ensure the stack, then under the
lock — return a cached adapter after marking it most recently used;
otherwise, at capacity, pop and close the least recently used entry
(possible only when the dict is non-empty); then construct a fresh
adapter, enter it on the stack and cache it. -/
def getClient (cfg : PoolConfig) (st : PoolState) (key : String) :
    Except PoolError (PoolState × Nat) :=
  let st := ensureStack st
  match st.clients.find? (fun p => p.1 == key) with
  | some p => .ok ({ st with clients := moveToEnd key st.clients }, p.2)
  | none =>
    let evicted : Except PoolError PoolState :=
      if cfg.maxClients ≤ st.clients.length then
        match st.clients with
        | [] => .error .keyError
        | (_, c0) :: restClients =>
          .ok (closeAdapter { st with clients := restClients } c0)
      else .ok st
    match evicted with
    | .error e => .error e
    | .ok st =>
      let cid := st.nextId
      .ok ({ st with
              clients := st.clients ++ [(key, cid)],
              stack := st.stack ++ [cid],
              nextId := cid + 1 }, cid)

/-- `OpenRouterService.remove_client`: pop the entry if present and close
its adapter. -/
def removeClient (st : PoolState) (key : String) : PoolState :=
  match st.clients.find? (fun p => p.1 == key) with
  | some p =>
    closeAdapter { st with clients := st.clients.eraseP (fun q => q.1 == key) } p.2
  | none => st

/-- `OpenRouterService.__aexit__`: `AsyncExitStack.aclose` unwinds the
stack in reverse entry order, calling each adapter's `__aexit__`; then
the client dict is cleared and the stack and entered flag reset. -/
def poolAexit (st : PoolState) : PoolState :=
  let st := st.stack.reverse.foldl closeAdapter st
  { st with clients := [], stack := [], entered := false }

/-- `OpenRouterService.aclose`: `__aexit__` followed by `_ensure_stack`,
reopening the pool for reuse. -/
def poolAclose (st : PoolState) : PoolState :=
  ensureStack (poolAexit st)

/-- One pool operation, for invariant statements over operation
sequences. -/
inductive PoolOp where
  | get (key : String)
  | remove (key : String)
  | close
deriving DecidableEq, Repr

/-- Run one operation. When `_get_client` raises (the `KeyError` from
`popitem` on an empty dict, reachable only with `max_clients = 0`), the
dict is unchanged: only `_ensure_stack` has taken effect. -/
def runPoolOp (cfg : PoolConfig) (st : PoolState) : PoolOp → PoolState
  | .get key =>
    match getClient cfg st key with
    | .ok (st', _) => st'
    | .error _ => ensureStack st
  | .remove key => removeClient st key
  | .close => poolAclose st

/-! ## Websocket chat utilities (chat_utils.py) -/

/-- Response fragment sent over the websocket (`ChatWsResponse`). -/
structure ChatWsResponse where
  transaction_id : String
  fragment : String
  finished : Bool := false
deriving DecidableEq, Repr

/-- One event observed while iterating `cfg.stream_func(...)`: a yielded
chunk, or one of the two falcon errors that `stream_answer` raises for
service timeout / bad-gateway failures. -/
inductive UpstreamEvent where
  | chunk (c : StreamChunk)
  | gatewayTimeout
  | badGateway
deriving DecidableEq, Repr

/-- How `stream_chat_response` ends for one transaction: the loop ran to
completion or broke at a finish reason; an upstream falcon error was
caught and the websocket closed with code 1011; or `chunk.choices[0]`
raised an uncaught `IndexError`. -/
inductive StreamRunEnd where
  | completed
  | closedAfterUpstreamError
  | uncaughtIndexError
deriving DecidableEq, Repr

/-- Observable result of one `stream_chat_response` call: the frames sent
on the websocket in order, how many upstream events were consumed,
whether the handler closed the websocket, and how the call ended. -/
structure StreamRunResult where
  frames : List ChatWsResponse
  consumed : Nat
  wsClosed : Bool
  outcome : StreamRunEnd
deriving DecidableEq, Repr

/-- `stream_chat_response`: for each chunk take `choices[0]` (raising
`IndexError` on an empty list — not caught by the handler, which catches
only `falcon.HTTPGatewayTimeout` and `falcon.HTTPBadGateway`); send a
content frame when `choice.delta.content` is truthy; on a non-null
finish reason send the final frame and break. A caught falcon error
closes the websocket with code 1011. -/
def streamChatResponse (txid : String) : List UpstreamEvent → StreamRunResult
  | [] => ⟨[], 0, false, .completed⟩
  | .gatewayTimeout :: _ => ⟨[], 1, true, .closedAfterUpstreamError⟩
  | .badGateway :: _ => ⟨[], 1, true, .closedAfterUpstreamError⟩
  | .chunk c :: rest =>
    match c.choices with
    | [] => ⟨[], 1, false, .uncaughtIndexError⟩
    | choice :: _ =>
      let contentFrames : List ChatWsResponse :=
        match choice.delta.content with
        | some s => if s = "" then [] else [⟨txid, s, false⟩]
        | none => []
      if choice.finish_reason.isSome then
        ⟨contentFrames ++ [⟨txid, "", true⟩], 1, false, .completed⟩
      else
        let r := streamChatResponse txid rest
        ⟨contentFrames ++ r.frames, r.consumed + 1, r.wsClosed, r.outcome⟩

/-- Whether a chunk's first choice reports a non-null finish reason. -/
def chunkFinished (c : StreamChunk) : Bool :=
  match c.choices.head? with
  | some ch => ch.finish_reason.isSome
  | none => false

/-- The content frame a chunk contributes, if its first choice carries
non-empty incremental content. -/
def contentFrameOf (txid : String) (c : StreamChunk) : Option ChatWsResponse :=
  match c.choices.head? with
  | some ch =>
    match ch.delta.content with
    | some s => if s = "" then none else some ⟨txid, s, false⟩
    | none => none
  | none => none

/-! ## build_chat_history (chat_utils.py)

Python lists are heap-allocated mutable objects; a history argument is a
reference into the heap. `build_chat_history` copies `history or []`,
appends the user message to the copy, and returns the fresh list, so the
caller's list is untouched. The heap is a list of message lists and a
reference is an index into it. -/

abbrev PyHeap := List (List ChatMessage)

/-- `build_chat_history`: `new_history = list(history or [])`, then
`new_history.append(ChatMessage(role="user", content=message))`. Returns
the updated heap and the reference to the fresh list. -/
def buildChatHistory (h : PyHeap) (message : String) (history : Option Nat) :
    PyHeap × Nat :=
  let src : List ChatMessage :=
    match history with
    | some r => h.getD r []
    | none => []
  let newList := src ++ [{ role := .user, content := message }]
  (h ++ [newList], h.length)

/-! ## Concrete test fixtures -/

/-- A concrete stream chunk for exercising the SSE protocol. -/
def toyChunk (n : Nat) : StreamChunk :=
  { id := toString n, created := n, model := "m",
    choices := [{ index := 0, delta := { content := some (toString n) } }] }

/-- A concrete decoder recognising the payloads `{c1}` and `{c2}`. -/
def toyDecode : Line → Option StreamChunk := fun l =>
  if l = "{c1}".toList then some (toyChunk 1)
  else if l = "{c2}".toList then some (toyChunk 2)
  else none

/-- A chunk carrying incremental content and no finish reason. -/
def chunkHello : StreamChunk :=
  { id := "a", created := 0, model := "m",
    choices := [{ index := 0, delta := { content := some "Hello" } }] }

/-- A chunk carrying content together with a finish reason. -/
def chunkStop : StreamChunk :=
  { id := "b", created := 1, model := "m",
    choices := [{ index := 0, delta := { content := some "!" },
                  finish_reason := some "stop" }] }

instance exceptDecEq {ε α : Type} [DecidableEq ε] [DecidableEq α] :
    DecidableEq (Except ε α) := fun x y =>
  match x, y with
  | .ok a, .ok b =>
    if h : a = b then .isTrue (by rw [h]) else .isFalse (by simp [h])
  | .error a, .error b =>
    if h : a = b then .isTrue (by rw [h]) else .isFalse (by simp [h])
  | .ok _, .error _ => .isFalse (by simp)
  | .error _, .ok _ => .isFalse (by simp)

/-! ## Theorems -/

theorem raisedClass_eq_spec (s : Nat) :
    (if mapStatusToError s = ExcClass.apiError then ExcClass.genericAPIError
     else mapStatusToError s) = specStatusClass s := by
  by_cases h401 : s = 401
  · subst h401; decide
  by_cases h402 : s = 402
  · subst h402; decide
  by_cases h403 : s = 403
  · subst h403; decide
  by_cases h429 : s = 429
  · subst h429; decide
  by_cases h400 : s = 400
  · subst h400; decide
  have hlook : statusMapLookup s = none := by
    simp [statusMapLookup, h401, h402, h403, h429, h400]
  by_cases hmem : s ∈ validHTTPStatusCodes
  · by_cases h5 : 500 ≤ s
    · simp [mapStatusToError, hmem, hlook, h5, specStatusClass,
            h401, h402, h403, h429, h400]
    · simp [mapStatusToError, hmem, hlook, h5, specStatusClass,
            h401, h402, h403, h429, h400]
  · have hns : ¬(500 ≤ s ∧ s ∈ validHTTPStatusCodes) := fun hc => hmem hc.2
    simp [mapStatusToError, hmem, specStatusClass,
          h401, h402, h403, h429, h400, hns]

/-- Claim C1 counterexample: status 520 is at least 500, so the claim requires
the server error, but `HTTPStatus(520)` raises `ValueError` and
`_map_status_to_error` falls back to the base class, so
`_raise_for_status` raises the generic API error instead. -/
theorem status_520_maps_to_generic_not_server :
    raiseForStatus (fun _ => Except.error "malformed") 520 [] =
      some ⟨ExcClass.genericAPIError, 520, none⟩ ∧
    ExcClass.genericAPIError ≠ ExcClass.serverError := by
  exact ⟨rfl, by decide⟩

/-- Claim C1 amended: for every status ≥ 400 observed by `complete` or `stream`
(both check via `_raise_for_status`), the raised class is determined by
the status — 401 authentication, 402 insufficient credits, 403
permission, 429 rate limit, 400 invalid request, recognised statuses
≥ 500 the server error, and every other status ≥ 400 (unlisted
recognised 4xx such as 418 and unrecognised codes such as 520) the
generic API error — and the error carries the status code together with
the parsed details when the error body decodes, and no details (not a
failure) when it is malformed. -/
theorem raise_for_status_amended_mapping
    (dec : RawBody → Except String OpenRouterErrorResponse)
    (status : Nat) (raw : RawBody) (h : 400 ≤ status) :
    raiseForStatus dec status raw =
      some ⟨specStatusClass status, status, decodeErrorDetails dec raw⟩ ∧
    (∀ r, dec raw = .ok r → decodeErrorDetails dec raw = some r.error) ∧
    (∀ msg, dec raw = .error msg → decodeErrorDetails dec raw = none) := by
  refine ⟨?_, ?_, ?_⟩
  · have hlt : ¬ status < 400 := by omega
    have hcls := raisedClass_eq_spec status
    simp only [raiseForStatus, if_neg hlt]
    by_cases hbase : mapStatusToError status = ExcClass.apiError
    · rw [if_pos hbase]
      rw [if_pos hbase] at hcls
      rw [hcls]
    · rw [if_neg hbase]
      rw [if_neg hbase] at hcls
      rw [hcls]
  · intro r hr
    simp [decodeErrorDetails, hr]
  · intro msg hmsg
    simp [decodeErrorDetails, hmsg]

theorem raise_for_status_amended_mapping_witness :
    (400 : Nat) ≤ 401 ∧
    raiseForStatus (fun _ => Except.ok ⟨{ message := "bad key" }⟩) 401 [1] =
      some ⟨ExcClass.authenticationError, 401, some { message := "bad key" }⟩ := by
  refine ⟨by decide, ?_⟩
  have h := (raise_for_status_amended_mapping
    (fun _ => Except.ok ⟨{ message := "bad key" }⟩) 401 [1] (by decide)).1
  rw [h]
  rfl

/-- Claim C3 counterexample: `OpenRouterStreamChunkDecodeError` is an
adapter-level `OpenRouterDataValidationError`, yet the `except` clauses
of `chat_with_service` / `stream_chat_with_service` do not match it, so
it crosses the pool boundary unchanged instead of as a `ServiceError`. -/
theorem stream_chunk_decode_error_escapes_service_boundary :
    isInstance .streamChunkDecodeError .dataValidationError = true ∧
    mapServiceError .streamChunkDecodeError =
      .error .streamChunkDecodeError := by decide

/-- Claim C3 amended: the service boundary re-raises the timeout error as the
service timeout error and every other network or API error as the
service bad-gateway error, but data-validation errors (request-encode
and response-decode failures) are not caught and propagate to the caller
unchanged, as does any exception outside the caught classes. -/
theorem service_error_funnel_amended (e : ExcClass) :
    (isInstance e .timeoutError = true → mapServiceError e = .ok .timeout) ∧
    (isInstance e .timeoutError = false →
      (isInstance e .networkError = true ∨ isInstance e .apiError = true) →
      mapServiceError e = .ok .badGateway) ∧
    (isInstance e .dataValidationError = true → mapServiceError e = .error e) ∧
    (isInstance e .timeoutError = false → isInstance e .networkError = false →
      isInstance e .serverError = false → isInstance e .apiError = false →
      mapServiceError e = .error e) := by
  cases e <;> decide

theorem service_error_funnel_amended_witness :
    mapServiceError ExcClass.timeoutError = Except.ok ServiceError.timeout :=
  (service_error_funnel_amended ExcClass.timeoutError).1 (by decide)

/-- Claim C8: `create_chat_completion` always sends a body whose stream field
is false, and `stream_chat_completion` always sends one whose stream
field is true, each leaving every other field of the request unchanged;
the mismatch is corrected, never rejected. -/
theorem stream_flag_corrected_not_rejected (req : ChatCompletionRequest) :
    (completeSentRequest req).stream = false ∧
    (streamSentRequest req).stream = true ∧
    completeSentRequest req = { req with stream := false } ∧
    streamSentRequest req = { req with stream := true } := by
  cases req with
  | mk model messages stream mt tk sd sp us =>
    cases stream <;> simp [completeSentRequest, streamSentRequest]

/-- Claim C9: a chunk whose choices list is empty makes `stream_chat_response`
raise an `IndexError` at `chunk.choices[0]`, which is not among the two
falcon error types its handler catches: no frame is emitted, no
finished-marker is ever sent, and the websocket is not closed by the
handler. -/
theorem empty_choices_chunk_uncaught_index_error :
    streamChatResponse "t1"
        [.chunk { id := "c", created := 0, model := "m", choices := [] }] =
      ⟨[], 1, false, .uncaughtIndexError⟩ := rfl

/-- Claim C2: for every finite sequence of body lines consumed by
`stream_chat_completion`: empty lines and lines starting with the
comment marker yield nothing; a `data: ` line with empty payload ends
iteration cleanly; every other `data: `-prefixed line either yields the
decoded chunk or, on decode failure, raises the stream-chunk-decode
error and terminates the sequence; and the three lines
`data: <chunk1>`, `data: <chunk2>`, `data: ` yield exactly the two
chunks in order and then stop cleanly. -/
theorem sse_line_protocol (decode : Line → Option StreamChunk) :
    (∀ line rest, (line = [] ∨ [':'].isPrefixOf line) →
      processSSELines decode (line :: rest) = processSSELines decode rest) ∧
    (∀ rest, processSSELines decode (dataTag :: rest) = ([], .sentinel)) ∧
    (∀ payload rest c, payload ≠ [] → decode payload = some c →
      processSSELines decode ((dataTag ++ payload) :: rest) =
        (c :: (processSSELines decode rest).1, (processSSELines decode rest).2)) ∧
    (∀ payload rest, payload ≠ [] → decode payload = none →
      processSSELines decode ((dataTag ++ payload) :: rest) =
        ([], .decodeFailure payload)) ∧
    (∀ p1 p2 c1 c2, p1 ≠ [] → p2 ≠ [] →
      decode p1 = some c1 → decode p2 = some c2 →
      processSSELines decode [dataTag ++ p1, dataTag ++ p2, dataTag] =
        ([c1, c2], .sentinel)) := by
  refine ⟨?_, ?_, ?_, ?_, ?_⟩
  · intro line rest h
    simp only [processSSELines]
    rw [if_pos h]
  · intro rest
    simp [processSSELines, dataTag, List.isPrefixOf]
  · intro payload rest c hp hd
    simp [processSSELines, dataTag, List.isPrefixOf, hp, hd]
  · intro payload rest hp hd
    simp [processSSELines, dataTag, List.isPrefixOf, hp, hd]
  · intro p1 p2 c1 c2 hp1 hp2 hd1 hd2
    simp [processSSELines, dataTag, List.isPrefixOf, hp1, hp2, hd1, hd2]

theorem sse_line_protocol_witness :
    processSSELines toyDecode
        [dataTag ++ "{c1}".toList, dataTag ++ "{c2}".toList, dataTag] =
      ([toyChunk 1, toyChunk 2], .sentinel) :=
  (sse_line_protocol toyDecode).2.2.2.2 "{c1}".toList "{c2}".toList
    (toyChunk 1) (toyChunk 2) (by decide) (by decide) (by decide) (by decide)

/-- Claim C5: for a finite chunk sequence containing a finishing chunk, in
which every chunk has a first choice, the frames sent are exactly one
content frame per chunk with non-empty first-choice content, in upstream
order, up to and including the first chunk whose first choice reports a
finish reason, followed by exactly one final frame with empty fragment
and finished set; no chunk after the finishing one is consumed, and the
websocket is not closed. -/
theorem stream_chat_response_frames (txid : String) (chunks : List StreamChunk)
    (hne : ∀ c ∈ chunks, c.choices ≠ [])
    (hfin : ∃ c ∈ chunks, chunkFinished c = true) :
    streamChatResponse txid (chunks.map .chunk) =
      ⟨(chunks.take ((chunks.takeWhile (fun c => !chunkFinished c)).length + 1)).filterMap
          (contentFrameOf txid) ++ [⟨txid, "", true⟩],
        (chunks.takeWhile (fun c => !chunkFinished c)).length + 1, false,
        .completed⟩ := by
  induction chunks with
  | nil => simp at hfin
  | cons c rest ih =>
    cases hc : c.choices with
    | nil => exact absurd hc (hne c (List.mem_cons_self c rest))
    | cons choice tail =>
      by_cases hf : choice.finish_reason.isSome
      · have hcf : chunkFinished c = true := by simp [chunkFinished, hc, hf]
        have hframe : (contentFrameOf txid c) =
            (match choice.delta.content with
             | some s => if s = "" then none else some ⟨txid, s, false⟩
             | none => none) := by
          simp [contentFrameOf, hc]
        simp only [List.map_cons, streamChatResponse, hc, hf, if_true,
          List.takeWhile_cons, hcf, Bool.not_true, Bool.false_eq_true, if_false,
          List.length_nil, Nat.zero_add, List.take_succ_cons, List.take_zero,
          List.filterMap_cons, hframe]
        cases hcon : choice.delta.content with
        | none => simp
        | some s =>
          by_cases hs : s = "" <;> simp [hs]
      · have hcf : chunkFinished c = false := by simp [chunkFinished, hc, hf]
        have hfin' : ∃ x ∈ rest, chunkFinished x = true := by
          rcases hfin with ⟨x, hx, hxf⟩
          rcases List.mem_cons.mp hx with h | h
          · subst h; rw [hcf] at hxf; exact absurd hxf (by simp)
          · exact ⟨x, h, hxf⟩
        have hne' : ∀ x ∈ rest, x.choices ≠ [] := fun x hx =>
          hne x (List.mem_cons_of_mem _ hx)
        have ihr := ih hne' hfin'
        have hframe : (contentFrameOf txid c) =
            (match choice.delta.content with
             | some s => if s = "" then none else some ⟨txid, s, false⟩
             | none => none) := by
          simp [contentFrameOf, hc]
        simp only [List.map_cons, streamChatResponse, hc, hf, if_false,
          List.takeWhile_cons, hcf, Bool.not_false, if_true, List.length_cons,
          List.take_succ_cons, List.filterMap_cons, hframe, ihr]
        cases hcon : choice.delta.content with
        | none => simp
        | some s =>
          by_cases hs : s = "" <;> simp [hs]

theorem stream_chat_response_frames_witness :
    streamChatResponse "tx" [.chunk chunkHello, .chunk chunkStop] =
      ⟨[⟨"tx", "Hello", false⟩, ⟨"tx", "!", false⟩, ⟨"tx", "", true⟩], 2,
        false, .completed⟩ := by
  have h := stream_chat_response_frames "tx" [chunkHello, chunkStop]
    (by decide) (by decide)
  exact h.trans (by decide)

theorem getClient_hit (cfg : PoolConfig) (st : PoolState) (key : String)
    (p : String × Nat)
    (hfind : st.clients.find? (fun q => q.1 == key) = some p) :
    getClient cfg st key =
      .ok (⟨true, moveToEnd key st.clients, st.nextId, st.stack, st.closeLog⟩,
        p.2) := by
  simp [getClient, ensureStack, hfind]

theorem getClient_miss_under (cfg : PoolConfig) (st : PoolState) (key : String)
    (hfind : st.clients.find? (fun q => q.1 == key) = none)
    (hcap : st.clients.length < cfg.maxClients) :
    getClient cfg st key =
      .ok (⟨true, st.clients ++ [(key, st.nextId)], st.nextId + 1,
            st.stack ++ [st.nextId], st.closeLog⟩, st.nextId) := by
  simp [getClient, ensureStack, hfind, Nat.not_le.mpr hcap]

theorem getClient_miss_evict (cfg : PoolConfig) (st : PoolState) (key : String)
    (k0 : String) (c0 : Nat) (restC : List (String × Nat))
    (hfind : st.clients.find? (fun q => q.1 == key) = none)
    (hcap : cfg.maxClients ≤ st.clients.length)
    (hcl : st.clients = (k0, c0) :: restC) :
    getClient cfg st key =
      .ok (⟨true, restC ++ [(key, st.nextId)], st.nextId + 1,
            st.stack ++ [st.nextId],
            if c0 ∈ st.closeLog then st.closeLog else st.closeLog ++ [c0]⟩,
          st.nextId) := by
  rw [hcl] at hfind hcap
  have hcap' : cfg.maxClients ≤ restC.length + 1 := by simpa using hcap
  by_cases hmem : c0 ∈ st.closeLog <;>
    simp [getClient, ensureStack, hfind, hcap', hcl, closeAdapter, hmem]

theorem getClient_miss_zero (cfg : PoolConfig) (st : PoolState) (key : String)
    (hfind : st.clients.find? (fun q => q.1 == key) = none)
    (hcap : cfg.maxClients ≤ st.clients.length)
    (hcl : st.clients = []) :
    getClient cfg st key = .error .keyError := by
  rw [hcl] at hcap
  simp [getClient, ensureStack, hfind, hcl, Nat.le_zero.mp hcap]

theorem moveToEnd_perm_aux (key : String) (p : String × Nat) :
    ∀ l : List (String × Nat), l.find? (fun q => q.1 == key) = some p →
      (l.eraseP (fun q => q.1 == key) ++ [p]).Perm l := by
  intro l
  induction l with
  | nil => intro h; simp at h
  | cons x xs ih =>
    intro h
    by_cases hx : (x.1 == key) = true
    · simp only [List.find?_cons, hx, cond_true] at h
      injection h with h
      subst h
      simp only [List.eraseP_cons, hx, cond_true]
      exact List.perm_append_comm
    · simp only [List.find?_cons, hx, cond_false, Bool.false_eq_true] at h
      simp only [List.eraseP_cons, hx, cond_false, Bool.false_eq_true,
        List.cons_append]
      exact List.Perm.cons x (ih h)

theorem moveToEnd_perm (key : String) (l : List (String × Nat)) :
    (moveToEnd key l).Perm l := by
  unfold moveToEnd
  cases h : l.find? (fun q => q.1 == key) with
  | none => exact List.Perm.refl l
  | some p => exact moveToEnd_perm_aux key p l h

/-- Claim C6: with the pool at capacity holding entries for other credentials,
acquiring a new credential closes exactly the least-recently-used entry,
closes it exactly once, and caches a freshly constructed adapter;
acquiring a cached credential constructs nothing, returns the cached
adapter, and moves its entry to the most-recently-used position. -/
theorem pool_lru_hit_and_eviction (cfg : PoolConfig) (st : PoolState)
    (key : String) :
    (∀ k0 c0 restC,
      st.clients = (k0, c0) :: restC →
      st.clients.length = cfg.maxClients →
      st.clients.find? (fun q => q.1 == key) = none →
      c0 ∉ st.closeLog →
      getClient cfg st key =
        .ok (⟨true, restC ++ [(key, st.nextId)], st.nextId + 1,
              st.stack ++ [st.nextId], st.closeLog ++ [c0]⟩, st.nextId) ∧
      (st.closeLog ++ [c0]).count c0 = 1) ∧
    (∀ p, st.clients.find? (fun q => q.1 == key) = some p →
      getClient cfg st key =
        .ok (⟨true, st.clients.eraseP (fun q => q.1 == key) ++ [p],
              st.nextId, st.stack, st.closeLog⟩, p.2)) := by
  constructor
  · intro k0 c0 restC hcl hlen hfind hclog
    have h := getClient_miss_evict cfg st key k0 c0 restC hfind
      (le_of_eq hlen.symm) hcl
    rw [if_neg hclog] at h
    refine ⟨h, ?_⟩
    simp [List.count_append, List.count_eq_zero.mpr hclog]
  · intro p hp
    have h := getClient_hit cfg st key p hp
    rw [h]
    simp [moveToEnd, hp]

theorem pool_lru_hit_and_eviction_witness :
    getClient ⟨1⟩ ⟨false, [("old", 0)], 1, [0], []⟩ "new" =
      .ok (⟨true, [("new", 1)], 2, [0, 1], [0]⟩, 1) ∧
    getClient ⟨1⟩ ⟨false, [("old", 0)], 1, [0], []⟩ "old" =
      .ok (⟨true, [("old", 0)], 1, [0], []⟩, 0) := by
  constructor
  · have h := (pool_lru_hit_and_eviction ⟨1⟩ ⟨false, [("old", 0)], 1, [0], []⟩
      "new").1 "old" 0 [] rfl rfl (by decide) (by decide)
    exact h.1.trans (by decide)
  · have h := (pool_lru_hit_and_eviction ⟨1⟩ ⟨false, [("old", 0)], 1, [0], []⟩
      "old").2 ("old", 0) (by decide)
    exact h.trans (by decide)

theorem closeAdapter_clients (st : PoolState) (cid : Nat) :
    (closeAdapter st cid).clients = st.clients := by
  unfold closeAdapter
  split <;> rfl

theorem runPoolOp_preserves (cfg : PoolConfig) (st : PoolState) (op : PoolOp)
    (hlen : st.clients.length ≤ cfg.maxClients)
    (hnd : (st.clients.map Prod.fst).Nodup) :
    (runPoolOp cfg st op).clients.length ≤ cfg.maxClients ∧
    ((runPoolOp cfg st op).clients.map Prod.fst).Nodup := by
  cases op with
  | close => simp [runPoolOp, poolAclose, poolAexit, ensureStack]
  | remove key =>
    cases hf : st.clients.find? (fun q => q.1 == key) with
    | none => simpa [runPoolOp, removeClient, hf] using ⟨hlen, hnd⟩
    | some p =>
      have hsub : List.Sublist (st.clients.eraseP (fun q => q.1 == key))
          st.clients := List.eraseP_sublist _
      simp only [runPoolOp, removeClient, hf, closeAdapter_clients]
      exact ⟨le_trans hsub.length_le hlen, hnd.sublist (hsub.map Prod.fst)⟩
  | get key =>
    cases hf : st.clients.find? (fun q => q.1 == key) with
    | some p =>
      simp only [runPoolOp, getClient_hit cfg st key p hf]
      have hperm := moveToEnd_perm key st.clients
      exact ⟨hperm.length_eq ▸ hlen, ((hperm.map Prod.fst).nodup_iff).mpr hnd⟩
    | none =>
      have hkey : ∀ x ∈ st.clients, x.1 ≠ key := by
        intro x hx
        have := List.find?_eq_none.mp hf x hx
        simpa using this
      by_cases hcap : cfg.maxClients ≤ st.clients.length
      · cases hcl : st.clients with
        | nil =>
          simp only [runPoolOp, getClient_miss_zero cfg st key hf hcap hcl,
            ensureStack]
          exact ⟨hlen, hnd⟩
        | cons hd restC =>
          obtain ⟨k0, c0⟩ := hd
          simp only [runPoolOp, getClient_miss_evict cfg st key k0 c0 restC
            hf hcap hcl]
          constructor
          · have : restC.length + 1 = st.clients.length := by rw [hcl]; rfl
            simp only [List.length_append, List.length_map, List.length_cons,
              List.length_nil]
            omega
          · rw [hcl] at hnd
            simp only [List.map_append, List.map_cons, List.map_nil] at hnd ⊢
            rw [List.nodup_append]
            refine ⟨(List.nodup_cons.mp hnd).2, List.nodup_singleton key, ?_⟩
            intro a ha hmem
            rcases List.mem_singleton.mp hmem with rfl
            rcases List.mem_map.mp ha with ⟨x, hx, hx1⟩
            exact hkey x (by rw [hcl]; exact List.mem_cons_of_mem _ hx) hx1
      · simp only [runPoolOp, getClient_miss_under cfg st key hf
          (Nat.not_le.mp hcap)]
        constructor
        · simp only [List.length_append, List.length_cons, List.length_nil]
          omega
        · simp only [List.map_append, List.map_cons, List.map_nil]
          rw [List.nodup_append]
          refine ⟨hnd, List.nodup_singleton key, ?_⟩
          intro a ha hmem
          rcases List.mem_singleton.mp hmem with rfl
          rcases List.mem_map.mp ha with ⟨x, hx, hx1⟩
          exact hkey x hx hx1

/-- Claim C7: after every sequence of pool operations starting from a fresh
service — acquisitions, explicit removals and shutdowns — the
credential-to-adapter map holds at most `max_clients` entries and at
most one adapter per credential. -/
theorem pool_size_and_uniqueness_invariant (cfg : PoolConfig)
    (ops : List PoolOp) :
    ((ops.foldl (runPoolOp cfg) initPool).clients.length ≤ cfg.maxClients) ∧
    (((ops.foldl (runPoolOp cfg) initPool).clients.map Prod.fst).Nodup) := by
  suffices h : ∀ st : PoolState, st.clients.length ≤ cfg.maxClients →
      (st.clients.map Prod.fst).Nodup →
      ((ops.foldl (runPoolOp cfg) st).clients.length ≤ cfg.maxClients ∧
       ((ops.foldl (runPoolOp cfg) st).clients.map Prod.fst).Nodup) by
    exact h initPool (by simp [initPool]) (by simp [initPool])
  induction ops with
  | nil => intro st h1 h2; exact ⟨h1, h2⟩
  | cons op rest ih =>
    intro st h1 h2
    have hstep := runPoolOp_preserves cfg st op h1 h2
    exact ih _ hstep.1 hstep.2

theorem foldl_closeAdapter_mem (x : Nat) :
    ∀ (l : List Nat) (st : PoolState), (x ∈ l ∨ x ∈ st.closeLog) →
      x ∈ (l.foldl closeAdapter st).closeLog := by
  intro l
  induction l with
  | nil =>
    intro st h
    rcases h with h | h
    · simp at h
    · simpa using h
  | cons a as ih =>
    intro st h
    apply ih
    rcases h with h | h
    · rcases List.mem_cons.mp h with rfl | h
      · right
        by_cases hm : x ∈ st.closeLog
        · simpa [closeAdapter, hm]
        · simp [closeAdapter, hm]
      · left; exact h
    · right
      by_cases hm : a ∈ st.closeLog <;> simp [closeAdapter, hm, h]

theorem foldl_closeAdapter_nextId :
    ∀ (l : List Nat) (st : PoolState),
      (l.foldl closeAdapter st).nextId = st.nextId := by
  intro l
  induction l with
  | nil => intro st; rfl
  | cons a as ih =>
    intro st
    rw [List.foldl_cons, ih]
    unfold closeAdapter
    split <;> rfl

/-- Claim C4 counterexample: after `__aexit__` has run (the point inside
`aclose` at which, per the claim, the pool is draining), the single
cached adapter has already been closed — nothing waited on in-flight
calls — and a new acquisition succeeds by constructing a fresh adapter
instead of failing with a pool-closing error. -/
theorem acquire_during_shutdown_succeeds :
    (poolAexit ⟨true, [("alice", 0)], 1, [0], []⟩).closeLog = [0] ∧
    getClient ⟨10⟩ (poolAexit ⟨true, [("alice", 0)], 1, [0], []⟩) "bob" =
      .ok (⟨true, [("bob", 1)], 2, [1], [0]⟩, 1) := by
  exact ⟨rfl, by decide⟩

/-- Claim C4 amended: `aclose` closes every adapter on the exit stack
immediately — there is no draining state and no in-flight wait — clears
the pool, and reopens it for reuse; an acquisition made after the close
has run (whether or not `aclose` has yet reopened the stack) is never
failed with a pool-closing error: whenever the pool has capacity for at
least one client it succeeds by constructing a fresh adapter. -/
theorem shutdown_immediate_close_and_reuse (cfg : PoolConfig) (st : PoolState)
    (key : String) (hcap : 1 ≤ cfg.maxClients) :
    (∀ cid ∈ st.stack, cid ∈ (poolAexit st).closeLog) ∧
    (poolAexit st).clients = [] ∧
    (poolAclose st).clients = [] ∧
    getClient cfg (poolAexit st) key =
      .ok (⟨true, [(key, st.nextId)], st.nextId + 1, [st.nextId],
            (poolAexit st).closeLog⟩, st.nextId) := by
  refine ⟨?_, rfl, rfl, ?_⟩
  · intro cid hcid
    show cid ∈ (st.stack.reverse.foldl closeAdapter st).closeLog
    exact foldl_closeAdapter_mem cid st.stack.reverse st
      (Or.inl (List.mem_reverse.mpr hcid))
  · have hfind : (poolAexit st).clients.find? (fun q => q.1 == key) = none :=
      rfl
    have hlt : (poolAexit st).clients.length < cfg.maxClients := by
      show 0 < cfg.maxClients
      omega
    have h := getClient_miss_under cfg (poolAexit st) key hfind hlt
    have hnext : (poolAexit st).nextId = st.nextId := by
      show (st.stack.reverse.foldl closeAdapter st).nextId = st.nextId
      exact foldl_closeAdapter_nextId st.stack.reverse st
    rw [h, hnext]
    rfl

theorem shutdown_immediate_close_and_reuse_witness :
    (∀ cid ∈ (PoolState.mk true [("a", 0)] 1 [0] []).stack,
      cid ∈ (poolAexit ⟨true, [("a", 0)], 1, [0], []⟩).closeLog) ∧
    (poolAexit ⟨true, [("a", 0)], 1, [0], []⟩).clients = [] ∧
    (poolAclose ⟨true, [("a", 0)], 1, [0], []⟩).clients = [] ∧
    getClient ⟨10⟩ (poolAexit ⟨true, [("a", 0)], 1, [0], []⟩) "b" =
      .ok (⟨true, [("b", 1)], 2, [1],
            (poolAexit ⟨true, [("a", 0)], 1, [0], []⟩).closeLog⟩, 1) :=
  shutdown_immediate_close_and_reuse ⟨10⟩ ⟨true, [("a", 0)], 1, [0], []⟩ "b"
    (by decide)

/-- Claim C10: `build_chat_history` returns a freshly allocated list holding
the given history's elements in order followed by exactly one user-role
message whose content is the message string; the caller's history list
(and every other heap list) is left unmodified, and the absent-history
case yields just the user message. -/
theorem build_chat_history_appends_and_preserves (h : PyHeap) (msg : String) :
    (∀ r, r < h.length →
      ((buildChatHistory h msg (some r)).1.getD
          (buildChatHistory h msg (some r)).2 [] =
        h.getD r [] ++ [{ role := .user, content := msg }]) ∧
      (∀ i, i < h.length →
        (buildChatHistory h msg (some r)).1.getD i [] = h.getD i []) ∧
      (buildChatHistory h msg (some r)).2 ≠ r) ∧
    ((buildChatHistory h msg none).1.getD (buildChatHistory h msg none).2 [] =
      [{ role := .user, content := msg }]) ∧
    (∀ i, i < h.length →
      (buildChatHistory h msg none).1.getD i [] = h.getD i []) := by
  refine ⟨fun r hr => ⟨?_, fun i hi => ?_, ?_⟩, ?_, fun i hi => ?_⟩
  · simp [buildChatHistory, List.getD_append_right, List.getD]
  · simp [buildChatHistory, List.getD, List.getElem?_append_left hi]
  · simp only [buildChatHistory]
    omega
  · simp [buildChatHistory, List.getD]
  · simp [buildChatHistory, List.getD, List.getElem?_append_left hi]

theorem build_chat_history_appends_and_preserves_witness :
    ((buildChatHistory [[{ role := .system, content := "s" }]] "hi"
        (some 0)).1.getD
      (buildChatHistory [[{ role := .system, content := "s" }]] "hi"
        (some 0)).2 [] =
      [{ role := .system, content := "s" }] ++
        [{ role := .user, content := "hi" }]) ∧
    ((buildChatHistory [[{ role := .system, content := "s" }]] "hi"
        (some 0)).1.getD 0 [] = [{ role := .system, content := "s" }]) := by
  have h := (build_chat_history_appends_and_preserves
    [[{ role := .system, content := "s" }]] "hi").1 0 (by decide)
  exact ⟨h.1.trans (by decide), (h.2.1 0 (by decide)).trans (by decide)⟩

end Bournemouth
